import Mathlib

/-!
Verification development for the `web_classifier` scraping core
(`web_classifier/cli/scraper.py`, `web_classifier/scrapers/curl_scraper.py`,
`web_classifier/scrapers/playwright_scraper.py`,
`web_classifier/scrapers/base.py`).

The Python data model and the operations of the two scraping engines are
shallowly embedded as executable Lean definitions; the theorems at the end
settle the specification claims against them.  Bytes are modelled as
`List Nat`, `datetime` values as `Nat` timestamps, Python `None`-able
fields as `Option`.
-/

namespace WebClassifier

/-! ## Data model (`scrapers/base.py`)

The three dataclasses `ResponseOutput`, `RequestOutput` and `ScraperOutput`
(base.py lines 11-47).  Every dataclass field defaults to `None`; the
`Output` base class keeps the full field set as dictionary keys, so a
`ScraperOutput` always contains exactly its seven field names as keys. -/

structure ResponseOutput where
  body : Option (List Nat) := none
  date : Option Nat := none
  headers : Option (List (String × String)) := none
  status_code : Option Nat := none
  reason : Option String := none
deriving DecidableEq, Repr

structure RequestOutput where
  url : Option String := none
  body : Option (List Nat) := none
  cert : Option (List (String × String)) := none
  date : Option Nat := none
  headers : Option (List (String × String)) := none
  host : Option String := none
  method : Option String := none
  params : Option String := none
  path : Option String := none
  resource_type : Option String := none
  response : Option ResponseOutput := none
deriving DecidableEq, Repr

/-- `ScraperOutput` (base.py lines 39-47).  The `requests` field is modelled
as a plain list: both engines always construct it as a sequence
(curl_scraper.py line 71 builds a one-element tuple, playwright_scraper.py
line 164 passes the accumulated list), and `strip_data` treats a tuple and
a list alike. -/
@[ext]
structure ScraperOutput where
  request_url : Option String := none
  url : Option String := none
  date : Option Nat := none
  body : Option (List Nat) := none
  requests : List RequestOutput := []
  screenshot : Option (List Nat) := none
  full_screenshot : Option (List Nat) := none
deriving DecidableEq, Repr

/-! ## Stripping policy (`cli/scraper.py` lines 20-32, `strip_data`) -/

/-- The membership test `_r.resource_type in keep_request_type`
(cli/scraper.py line 24).  `resource_type` is `None` for curl-produced
records; `None in (strings…)` is `False` in Python. -/
def keepPred (keep : List String) (r : RequestOutput) : Bool :=
  match r.resource_type with
  | some t => keep.contains t
  | none => false

/-- The `elif _var in data` branch of `strip_data` (cli/scraper.py lines
25-31): a field whose runtime value is a list/tuple is replaced by `[]`, a
dict by `{}`, anything else by `None`.  Of the seven `ScraperOutput`
fields only `requests` holds a sequence; the rest are strings, bytes or a
datetime, so they are blanked to `None`.  A name that is not a field of
the record is left alone (`_var in data` is false). -/
def blankField (d : ScraperOutput) (v : String) : ScraperOutput :=
  if v = "request_url" then { d with request_url := none }
  else if v = "url" then { d with url := none }
  else if v = "date" then { d with date := none }
  else if v = "body" then { d with body := none }
  else if v = "requests" then { d with requests := [] }
  else if v = "screenshot" then { d with screenshot := none }
  else if v = "full_screenshot" then { d with full_screenshot := none }
  else d

/-- One iteration of the `for _var in to_strip` loop (cli/scraper.py lines
22-31).  The first branch fires only when `_var == "requests"` **and**
`keep_request_type` is truthy, i.e. a non-empty tuple/list; otherwise the
generic blanking branch runs. -/
def stripStep (keep : List String) (d : ScraperOutput) (v : String) : ScraperOutput :=
  if v = "requests" ∧ keep ≠ [] then
    { d with requests := d.requests.filter (keepPred keep) }
  else blankField d v

/-- `strip_data(data, to_strip, keep_request_type)` (cli/scraper.py lines
20-32): iterate the loop body over `to_strip` and return the (mutated)
record. -/
def strip_data (d : ScraperOutput) (to_strip : List String) (keep : List String) :
    ScraperOutput :=
  to_strip.foldl (stripStep keep) d

/-- Normal form of `strip_data`: a per-field description of its result,
used as the common working lemma for the stripping claims. -/
def stripNF (d : ScraperOutput) (f : List String) (keep : List String) : ScraperOutput where
  request_url := if f.contains "request_url" then none else d.request_url
  url := if f.contains "url" then none else d.url
  date := if f.contains "date" then none else d.date
  body := if f.contains "body" then none else d.body
  requests :=
    if f.contains "requests" then
      (if keep = [] then [] else d.requests.filter (keepPred keep))
    else d.requests
  screenshot := if f.contains "screenshot" then none else d.screenshot
  full_screenshot := if f.contains "full_screenshot" then none else d.full_screenshot

theorem stripStep_request_url (keep : List String) (v : String) (d : ScraperOutput) :
    (stripStep keep d v).request_url = if v = "request_url" then none else d.request_url := by
  unfold stripStep blankField
  split_ifs <;> simp_all

theorem stripStep_url (keep : List String) (v : String) (d : ScraperOutput) :
    (stripStep keep d v).url = if v = "url" then none else d.url := by
  unfold stripStep blankField
  split_ifs <;> simp_all

theorem stripStep_date (keep : List String) (v : String) (d : ScraperOutput) :
    (stripStep keep d v).date = if v = "date" then none else d.date := by
  unfold stripStep blankField
  split_ifs <;> simp_all

theorem stripStep_body (keep : List String) (v : String) (d : ScraperOutput) :
    (stripStep keep d v).body = if v = "body" then none else d.body := by
  unfold stripStep blankField
  split_ifs <;> simp_all

theorem stripStep_screenshot (keep : List String) (v : String) (d : ScraperOutput) :
    (stripStep keep d v).screenshot = if v = "screenshot" then none else d.screenshot := by
  unfold stripStep blankField
  split_ifs <;> simp_all

theorem stripStep_full_screenshot (keep : List String) (v : String) (d : ScraperOutput) :
    (stripStep keep d v).full_screenshot =
      if v = "full_screenshot" then none else d.full_screenshot := by
  unfold stripStep blankField
  split_ifs <;> simp_all

theorem stripStep_requests (keep : List String) (v : String) (d : ScraperOutput) :
    (stripStep keep d v).requests =
      if v = "requests" then
        (if keep = [] then [] else d.requests.filter (keepPred keep))
      else d.requests := by
  unfold stripStep blankField
  split_ifs <;> simp_all

theorem strip_data_cons (keep : List String) (v : String) (f : List String)
    (d : ScraperOutput) :
    strip_data d (v :: f) keep = strip_data (stripStep keep d v) f keep := rfl

theorem strip_data_request_url (f keep : List String) (d : ScraperOutput) :
    (strip_data d f keep).request_url =
      if f.contains "request_url" then none else d.request_url := by
  induction f generalizing d with
  | nil => rfl
  | cons v f ih =>
    rw [strip_data_cons, ih, stripStep_request_url]
    rcases eq_or_ne v "request_url" with hv | hv
    · subst hv; simp [List.contains_cons]
    · simp [List.contains_cons, hv, hv.symm]

theorem strip_data_url (f keep : List String) (d : ScraperOutput) :
    (strip_data d f keep).url = if f.contains "url" then none else d.url := by
  induction f generalizing d with
  | nil => rfl
  | cons v f ih =>
    rw [strip_data_cons, ih, stripStep_url]
    rcases eq_or_ne v "url" with hv | hv
    · subst hv; simp [List.contains_cons]
    · simp [List.contains_cons, hv, hv.symm]

theorem strip_data_date (f keep : List String) (d : ScraperOutput) :
    (strip_data d f keep).date = if f.contains "date" then none else d.date := by
  induction f generalizing d with
  | nil => rfl
  | cons v f ih =>
    rw [strip_data_cons, ih, stripStep_date]
    rcases eq_or_ne v "date" with hv | hv
    · subst hv; simp [List.contains_cons]
    · simp [List.contains_cons, hv, hv.symm]

theorem strip_data_body (f keep : List String) (d : ScraperOutput) :
    (strip_data d f keep).body = if f.contains "body" then none else d.body := by
  induction f generalizing d with
  | nil => rfl
  | cons v f ih =>
    rw [strip_data_cons, ih, stripStep_body]
    rcases eq_or_ne v "body" with hv | hv
    · subst hv; simp [List.contains_cons]
    · simp [List.contains_cons, hv, hv.symm]

theorem strip_data_screenshot (f keep : List String) (d : ScraperOutput) :
    (strip_data d f keep).screenshot =
      if f.contains "screenshot" then none else d.screenshot := by
  induction f generalizing d with
  | nil => rfl
  | cons v f ih =>
    rw [strip_data_cons, ih, stripStep_screenshot]
    rcases eq_or_ne v "screenshot" with hv | hv
    · subst hv; simp [List.contains_cons]
    · simp [List.contains_cons, hv, hv.symm]

theorem strip_data_full_screenshot (f keep : List String) (d : ScraperOutput) :
    (strip_data d f keep).full_screenshot =
      if f.contains "full_screenshot" then none else d.full_screenshot := by
  induction f generalizing d with
  | nil => rfl
  | cons v f ih =>
    rw [strip_data_cons, ih, stripStep_full_screenshot]
    rcases eq_or_ne v "full_screenshot" with hv | hv
    · subst hv; simp [List.contains_cons]
    · simp [List.contains_cons, hv, hv.symm]

theorem strip_data_requests (f keep : List String) (d : ScraperOutput) :
    (strip_data d f keep).requests =
      if f.contains "requests" then
        (if keep = [] then [] else d.requests.filter (keepPred keep))
      else d.requests := by
  induction f generalizing d with
  | nil => rfl
  | cons v f ih =>
    rw [strip_data_cons, ih, stripStep_requests]
    rcases eq_or_ne v "requests" with hv | hv
    · subst hv
      rcases eq_or_ne keep [] with hk | hk
      · simp [List.contains_cons, hk]
      · simp [List.contains_cons, hk, List.filter_filter, Bool.and_self]
    · simp [List.contains_cons, hv, hv.symm]

theorem strip_data_eq (f keep : List String) (d : ScraperOutput) :
    strip_data d f keep = stripNF d f keep := by
  ext1
  · rw [strip_data_request_url]; rfl
  · rw [strip_data_url]; rfl
  · rw [strip_data_date]; rfl
  · rw [strip_data_body]; rfl
  · rw [strip_data_requests]; rfl
  · rw [strip_data_screenshot]; rfl
  · rw [strip_data_full_screenshot]; rfl

/-! ## Connection-pool engine (`scrapers/curl_scraper.py`, `cli/scraper.py`)

A pycurl option is a `(constant, value)` pair passed to `setopt`; the
constants are named by strings here. -/

inductive OptValue
  | int (n : Int)
  | str (s : String)
  | strList (l : List String)
  | bool (b : Bool)
  | shareHandle
  | caPath
deriving DecidableEq

abbrev CurlOption := String × OptValue

/-- Constructor arguments of `CurlScraper.__init__`/`Scraper.__init__`
(curl_scraper.py lines 81-107, base.py lines 53-68), with the CLI defaults
of `parse_cli_arguments` and `add_args` (cli/scraper.py line 302,
curl_scraper.py lines 113-118, base.py lines 72-84).  `cookie_file` keeps
Python's `None`-vs-string distinction because `setup` tests it with
`is not None`. -/
structure CurlArgs where
  cookie_file : Option String := some ""
  allow_redirects : Bool := true
  max_redirects : Int := 3
  no_ssl : Bool := false
  timeout : Option Int := some 3000
  headers : Option (List String) := none
  user_agent : Option String := none
  proxy : Option String := none
deriving DecidableEq

structure CurlScraperState where
  cookie_file : Option String
  allow_redirects : Bool
  max_redirects : Int
  no_ssl : Bool
  timeout : Option Int
  headers : Option (List String)
  user_agent : Option String
  proxy : Option String
  curl_options : List CurlOption
deriving DecidableEq

/-- `CurlScraper.__init__` (curl_scraper.py lines 81-107): stores the
configuration and initialises `self.curl_options = []`. -/
def CurlScraper.init (a : CurlArgs) : CurlScraperState where
  cookie_file := a.cookie_file
  allow_redirects := a.allow_redirects
  max_redirects := a.max_redirects
  no_ssl := a.no_ssl
  timeout := a.timeout
  headers := a.headers
  user_agent := a.user_agent
  proxy := a.proxy
  curl_options := []

/-- `CurlScraper._add_curl_option` (curl_scraper.py lines 120-121). -/
def addOpt (s : CurlScraperState) (o : CurlOption) : CurlScraperState :=
  { s with curl_options := s.curl_options ++ [o] }

/-- `CurlScraper.setup` (curl_scraper.py lines 123-174).  The proxy branch
(lines 130-147) always raises once a proxy is set: line 143 evaluates
`self._add_curl_option.setopt(...)`, and a bound method has no `setopt`
attribute (for an unknown scheme the `PROXIES_TYPES_MAP` lookup raises
first); either way `setup` fails, so it is modelled as an error.  The
Python truthiness tests are rendered explicitly: `if self.headers:` is
true for a non-empty list, `if self.user_agent:` for a non-empty string,
`if self.cookie_file is not None:` for any string including `""`.
`certifi.where()` (line 164) is an external constant path, modelled as
`OptValue.caPath`. -/
def CurlScraper.setup (s0 : CurlScraperState) : Except String CurlScraperState :=
  let s := addOpt s0 ("SHARE", .shareHandle)
  match s0.proxy with
  | some _ => .error "AttributeError in proxy setup"
  | none =>
    let s := match s0.headers with
      | some hs => if hs ≠ [] then addOpt s ("HTTPHEADER", .strList hs) else s
      | none => s
    let s := match s0.cookie_file with
      | some cf => addOpt s ("COOKIEFILE", .str cf)
      | none => s
    let s := match s0.user_agent with
      | some ua => if ua ≠ "" then addOpt s ("USERAGENT", .str ua) else s
      | none => s
    let s :=
      if s0.no_ssl then
        addOpt (addOpt s ("SSL_VERIFYPEER", .int 0)) ("SSL_VERIFYHOST", .int 0)
      else
        addOpt (addOpt (addOpt s ("SSL_VERIFYPEER", .int 1)) ("SSL_VERIFYHOST", .int 2))
          ("CAINFO", .caPath)
    let s :=
      if s0.allow_redirects then
        addOpt (addOpt s ("FOLLOWLOCATION", .bool s0.allow_redirects))
          ("MAXREDIRS", .int s0.max_redirects)
      else s
    let s := addOpt s ("CONNECTTIMEOUT", .int 30)
    let s := addOpt s ("NOSIGNAL", .int 1)
    let s := match s0.timeout with
      | some t => addOpt s ("TIMEOUT", .int t)
      | none => s
    .ok s

/-- A pycurl handle, described by the options that have been applied to it. -/
structure CurlHandle where
  options : List CurlOption
deriving DecidableEq

/-- `CurlScraper._curl_instance` (curl_scraper.py lines 176-182): allocate
a fresh handle and apply every option currently in `self.curl_options`. -/
def CurlScraper.curl_instance (s : CurlScraperState) : CurlHandle where
  options := s.curl_options

/-- State of `_curl_main` after its setup phase: the pre-allocated handle
pool `m.handles` (cli/scraper.py lines 67-72) and the initial free-list
`m.handles[:]` (line 75). -/
structure CurlMainState where
  handles : List CurlHandle
  freelist : List CurlHandle
  num_conn_eff : Nat
deriving DecidableEq

/-- The setup phase of `_curl_main` (cli/scraper.py lines 40-76), given an
already-constructed scraper: read `num_conn`, check
`assert 1 <= num_conn <= 10000` (line 49, raising before anything is
allocated), clamp `num_conn = min(num_conn, num_urls)` (line 62), then
allocate `num_conn` handles via `_curl_instance` (lines 70-72) and copy
them into the free-list (line 75). -/
def curlMainSetup (s : CurlScraperState) (num_conn : Int) (urls : List String) :
    Except String CurlMainState :=
  if 1 ≤ num_conn ∧ num_conn ≤ 10000 then
    let num_urls := urls.length
    let nc := min num_conn.toNat num_urls
    let handles := List.replicate nc (CurlScraper.curl_instance s)
    .ok { handles := handles, freelist := handles, num_conn_eff := nc }
  else
    .error "invalid number of concurrent connections"

/-- `_curl_main` up to the start of its main loop (cli/scraper.py lines
40-76): it constructs the scraper with `CurlScraper(**kwargs)` (line 45)
and proceeds to the setup phase.  It never calls `scrapper.setup()`, so
the handles are created from the post-`__init__` state. -/
def curlMain (a : CurlArgs) (num_conn : Int) (urls : List String) :
    Except String CurlMainState :=
  curlMainSetup (CurlScraper.init a) num_conn urls

/-! ## Result sink of `_curl_main` (cli/scraper.py lines 99-143)

`info_read` reports each completed transfer either in `ok_list` or, with
an error code and message, in `err_list`.  For every success the loop
writes the serialized record followed by `os.linesep` (lines 111-113);
errored transfers write nothing (lines 119-124).  After the main loop the
trailing separator is cut off with `truncate(tell() - len(os.linesep))`
(line 142). -/

inductive JobResult
  | ok (rec : List Nat)
  | err (errno : Int) (msg : String)
deriving DecidableEq

/-- The serialized records of the successful jobs, in completion order
(`ok_list` entries; `err_list` entries contribute nothing). -/
def okRecords (results : List JobResult) : List (List Nat) :=
  results.filterMap fun r =>
    match r with
    | .ok rec => some rec
    | .err _ _ => none

/-- The bytes written by the `info_read` drain loop over a whole run:
`output_fp.write(data); output_fp.write(os.linesep)` per success
(cli/scraper.py lines 111-113), nothing per error. -/
def curlWrites (linesep : List Nat) (results : List JobResult) : List Nat :=
  results.foldl
    (fun acc r =>
      match r with
      | .ok rec => acc ++ rec ++ linesep
      | .err _ _ => acc)
    []

/-- `fp.truncate(size)`: resize the file to `size` bytes; a negative size
raises (`ValueError` for `io` objects), modelled as `none`. -/
def fileTruncate (content : List Nat) (size : Int) : Option (List Nat) :=
  if size < 0 then none else some (content.take size.toNat)

/-- The final output-file contents of a `_curl_main` run:
the drain-loop writes followed by
`output_fp.truncate(output_fp.tell() - len(os.linesep))`
(cli/scraper.py line 142), where `tell()` is the number of bytes written.
`none` means the truncate call raised. -/
def curlRunOutput (linesep : List Nat) (results : List JobResult) : Option (List Nat) :=
  fileTruncate (curlWrites linesep results)
    ((curlWrites linesep results).length - (linesep.length : Int))

/-- Modelled from the spec: "exactly one record per successfully-processed
job … separated by a single delimiter between records and no trailing
delimiter after the last record" (spec 4.4).  Used to compare the code's
output against the spec's description. -/
def specSepJoin (sep : List Nat) : List (List Nat) → List Nat
  | [] => []
  | [r] => r
  | r :: rs => r ++ sep ++ specSepJoin sep rs

/-- Helper: the drain-loop writes equal one `rec ++ linesep` block per
successful record, regardless of where errors are interleaved. -/
def writesFlat (sep : List Nat) : List (List Nat) → List Nat
  | [] => []
  | r :: rs => r ++ sep ++ writesFlat sep rs

theorem curlWrites_go (sep : List Nat) (results : List JobResult) :
    ∀ acc : List Nat,
      results.foldl
        (fun acc r =>
          match r with
          | .ok rec => acc ++ rec ++ sep
          | .err _ _ => acc)
        acc = acc ++ writesFlat sep (okRecords results) := by
  induction results with
  | nil => intro acc; simp [okRecords, writesFlat]
  | cons r rs ih =>
    intro acc
    cases r with
    | ok rec =>
      simp only [List.foldl_cons, ih]
      simp [okRecords, writesFlat, List.append_assoc]
    | err n m =>
      simp only [List.foldl_cons, ih]
      simp [okRecords, writesFlat]

theorem curlWrites_eq (sep : List Nat) (results : List JobResult) :
    curlWrites sep results = writesFlat sep (okRecords results) := by
  have h := curlWrites_go sep results []
  simpa [curlWrites] using h

theorem writesFlat_eq_specSepJoin (sep : List Nat) :
    ∀ recs : List (List Nat), recs ≠ [] →
      writesFlat sep recs = specSepJoin sep recs ++ sep := by
  intro recs
  induction recs with
  | nil => intro h; exact absurd rfl h
  | cons r rs ih =>
    intro _
    cases rs with
    | nil => simp [writesFlat, specSepJoin]
    | cons r2 rs2 =>
      have h2 : writesFlat sep (r2 :: rs2) = specSepJoin sep (r2 :: rs2) ++ sep :=
        ih (by simp)
      calc writesFlat sep (r :: r2 :: rs2)
          = r ++ sep ++ writesFlat sep (r2 :: rs2) := rfl
        _ = r ++ sep ++ (specSepJoin sep (r2 :: rs2) ++ sep) := by rw [h2]
        _ = specSepJoin sep (r :: r2 :: rs2) ++ sep := by
            show _ = r ++ sep ++ specSepJoin sep (r2 :: rs2) ++ sep
            simp [List.append_assoc]

/-! ## Page-pool engine (`scrapers/playwright_scraper.py`, `cli/scraper.py`)

### Worker queue and shutdown join (`_playwright_main`, cli/scraper.py
lines 202-226)

`asyncio.Queue.join()` returns when the count of unfinished tasks reaches
zero; every `put` increments it and every `task_done()` decrements it. -/

/-- The items put on `job_queue` in `_playwright_main`: every url (lines
217-218) followed by one `None` sentinel per worker (lines 220-221). -/
def playwrightEnqueue (urls : List String) (num_pages : Nat) : List (Option String) :=
  urls.map some ++ List.replicate num_pages none

/-- Whether `_playwright_worker` calls `queue.task_done()` for a consumed
item (cli/scraper.py lines 164-182): for a url the `finally` block runs
`queue.task_done()`; for a `None` sentinel the worker executes `return`
before entering the `try`, so `task_done` is never called. -/
def workerTaskDone (item : Option String) : Bool :=
  item.isSome

/-- The queue's unfinished-task count once every enqueued item has been
consumed and all workers have exited: puts minus `task_done` calls. -/
def queueUnfinishedAfterRun (urls : List String) (num_pages : Nat) : Nat :=
  (playwrightEnqueue urls num_pages).length -
    (playwrightEnqueue urls num_pages).countP workerTaskDone

/-- Whether `await job_queue.join()` (cli/scraper.py line 223) can return:
it does iff the unfinished-task count reaches zero. -/
def playwrightJoinReturns (urls : List String) (num_pages : Nat) : Bool :=
  queueUnfinishedAfterRun urls num_pages == 0

/-! ### Per-request capture (`playwright_scraper.py` lines 87-118 and
127-137) -/

/-- The data playwright exposes for a finished exchange's response. -/
structure ExchangeResponse where
  status : Nat
  body : List Nat
  all_headers : List (String × String)
  status_text : String
  security_details : List (String × String)
deriving DecidableEq

/-- The data playwright exposes for a finished exchange's request, as used
by `PlaywrightScraper.request_handler`.  The `parsed_*` fields model the
components `urlparse(request.url)` extracts on lines 103 and 111-114. -/
structure Exchange where
  url : String
  post_data : Option (List Nat)
  method : String
  all_headers : List (String × String)
  resource_type : String
  parsed_netloc : String
  parsed_path : String
  parsed_params : String
  response : Option ExchangeResponse
  date : Nat
deriving DecidableEq

/-- `PlaywrightScraper.request_handler` (playwright_scraper.py lines
87-118).  Line 88 fetches the response; line 89 immediately evaluates
`_response.security_details()` **before** the `if _response and
_response.status == 200` guard on line 90, so when the exchange has no
response the handler raises `AttributeError` on `None`.  With a response
present: status 200 builds a `ResponseOutput` carrying the body and
re-reads the security details as `_cert`; any other status leaves
`response = None` and `_cert = {}`. -/
def PlaywrightScraper.request_handler (req : Exchange) : Except String RequestOutput :=
  match req.response with
  | none => .error "AttributeError: NoneType object has no attribute security_details"
  | some resp =>
    let response : Option ResponseOutput :=
      if resp.status = 200 then
        some
          { body := some resp.body
            date := some req.date
            headers := some resp.all_headers
            status_code := some resp.status
            reason := some resp.status_text }
      else none
    let cert : List (String × String) :=
      if resp.status = 200 then resp.security_details else []
    .ok
      { url := some req.url
        body := req.post_data
        cert := some cert
        date := some req.date
        headers := some req.all_headers
        host := some req.parsed_netloc
        method := some req.method
        params := some req.parsed_params
        path := some req.parsed_path
        resource_type := some req.resource_type
        response := response }

/-- The wrapper installed by `scrape` around `request_handler`
(playwright_scraper.py lines 129-134): any exception is caught and logged
at debug level, and in that case nothing is appended to `_requests`. -/
def captureRequest (req : Exchange) : Option RequestOutput :=
  match PlaywrightScraper.request_handler req with
  | .ok r => some r
  | .error _ => none

/-! ### `PlaywrightScraper.scrape` (playwright_scraper.py lines 120-174) -/

/-- Configuration fields of `BrowserScraper` that `scrape` consults
(base.py lines 102-157). -/
structure PlaywrightCfg where
  with_requests : Bool := true
  clear_cookies : Bool := true
  implicit_wait : Nat := 0
deriving DecidableEq

/-- The behaviour of the browser page for one job: which of the awaited
page operations raise, and the data returned by the ones that succeed.
`exchanges` are the finished network exchanges the `requestfinished`
listener observes during navigation. -/
structure PageEnv where
  goto_fails : Bool := false
  content_fails : Bool := false
  screenshot_fails : Bool := false
  full_screenshot_fails : Bool := false
  clear_cookies_fails : Bool := false
  content : List Nat := []
  current_url : String := ""
  shot : List Nat := []
  full_shot : List Nat := []
  exchanges : List Exchange := []
  date : Nat := 0
deriving DecidableEq

/-- What `scrape` leaves behind for one job: the returned value or the
propagated exception, and whether the page opened on line 121 has been
closed when control leaves `scrape`. -/
structure ScrapeExit where
  result : Except String ScraperOutput
  pageClosed : Bool

/-- `PlaywrightScraper.scrape` (playwright_scraper.py lines 120-174):
open a page, route the interceptor, attach the `requestfinished` listener
when `with_requests` is set, then `goto` inside a `try` whose `except`
closes the page and re-raises (lines 145-151).  After navigation the body,
current url and the two screenshots are read (lines 153-157), the result
record is built (lines 159-167), cookies are cleared when configured
(lines 169-170), the page is closed (line 172) and the result returned.
The reads after the `try` run outside any cleanup handler, so an
exception there propagates with the page still open. -/
def PlaywrightScraper.scrape (cfg : PlaywrightCfg) (url : String) (env : PageEnv) :
    ScrapeExit :=
  if env.goto_fails then
    { result := .error "goto", pageClosed := true }
  else if env.content_fails then
    { result := .error "content", pageClosed := false }
  else if env.screenshot_fails then
    { result := .error "screenshot", pageClosed := false }
  else if env.full_screenshot_fails then
    { result := .error "full_screenshot", pageClosed := false }
  else if cfg.clear_cookies && env.clear_cookies_fails then
    { result := .error "clear_cookies", pageClosed := false }
  else
    { result := .ok
        { request_url := some url
          url := some env.current_url
          date := some env.date
          body := some env.content
          requests :=
            if cfg.with_requests then env.exchanges.filterMap captureRequest else []
          screenshot := some env.shot
          full_screenshot := some env.full_shot }
      pageClosed := true }

/-! ## Concrete values used by counterexamples and witnesses -/

def reqScript : RequestOutput := { resource_type := some "script" }

def pgRequests : ScraperOutput := { requests := [reqScript] }

def pgBody : ScraperOutput := { body := some [104, 105] }

/-- The call semantics of `strip_data` at its call sites (cli/scraper.py
lines 107 and 157): Python passes the `ScraperOutput` by reference and
`strip_data` assigns into it (`data[_var] = …`) before returning it, so
after `data = strip_data(data, …)` the returned record and the caller's
argument object are one and the same mutated object.  The pair is
(returned value, caller's argument object after the call). -/
def strip_data_call (d : ScraperOutput) (f keep : List String) :
    ScraperOutput × ScraperOutput :=
  (strip_data d f keep, strip_data d f keep)

/-! ## Claim theorems -/

/-- C5, counterexample.  The claim says that with `"requests"` in
`fieldsToBlank` and an **empty** `resourceTypesToKeep`, all
`RequestRecords` are kept unchanged.  In the code an empty
`keep_request_type` is falsy, so the `elif` branch blanks `requests` to
`[]` (cli/scraper.py lines 23-27): on a page with one request the result
keeps none of them. -/
theorem strip_requests_empty_keep_drops_all :
    ¬ ((strip_data pgRequests ["requests"] []).requests = pgRequests.requests) := by
  decide

/-- C5, amended.  For every page with `"requests"` among the fields to
strip: a non-empty `resourceTypesToKeep` filters `requests` down to
exactly the records whose resource-type tag is in the set; an **empty**
`resourceTypesToKeep` blanks `requests` to the empty list (keep none, not
keep all). -/
theorem strip_requests_filter_or_blank (d : ScraperOutput) (f keep : List String)
    (hf : f.contains "requests" = true) :
    (strip_data d f keep).requests =
      if keep = [] then [] else d.requests.filter (keepPred keep) := by
  rw [strip_data_requests, if_pos hf]

theorem strip_requests_filter_or_blank_witness :
    (["requests"] : List String).contains "requests" = true ∧
    (strip_data pgRequests ["requests"] ["image"]).requests =
      pgRequests.requests.filter (keepPred ["image"]) := by
  refine ⟨by decide, ?_⟩
  have h := strip_requests_filter_or_blank pgRequests ["requests"] ["image"] (by decide)
  simpa using h

/-- C7, counterexample.  The claim says the input page value passed to
`Strip` is left unmodified.  `strip_data` mutates its argument in place
(`data[_var] = …`, cli/scraper.py lines 24-31), so after the call the
caller's page object has its `body` blanked: it is no longer equal to the
original value. -/
theorem strip_mutates_input :
    ¬ ((strip_data_call pgBody ["body"] []).2 = pgBody) := by
  decide

/-- C7, amended.  `Strip` deterministically returns the record in which
each named field present in `fieldsToBlank` is replaced by its type's
zero value (empty list for the `requests` sequence, `None` for the
string/bytes/datetime fields), except that `requests` with a non-empty
`resourceTypesToKeep` is filtered instead of blanked; the record's field
set is preserved (the seven fields always remain).  But the
transformation is performed by mutating the input page in place: the
caller's page object after the call equals the returned record. -/
theorem strip_call_normal_form (d : ScraperOutput) (f keep : List String) :
    strip_data_call d f keep = (stripNF d f keep, stripNF d f keep) := by
  simp [strip_data_call, strip_data_eq]

/-- C8.  Stripping is idempotent:
`Strip(Strip(page, f, r), f, r) = Strip(page, f, r)`. -/
theorem strip_idempotent (d : ScraperOutput) (f keep : List String) :
    strip_data (strip_data d f keep) f keep = strip_data d f keep := by
  simp only [strip_data_eq]
  cases d
  ext1 <;> simp only [stripNF] <;> split_ifs <;>
    simp_all [List.filter_filter, Bool.and_self]

/-- C2.  For every run of the connection-pool engine that completes
successfully — which requires at least one successful job, otherwise the
final truncate raises — the output file contains exactly one serialized
record per successful job in completion order (errored jobs contribute
nothing), separated by a single delimiter between consecutive records and
with no trailing delimiter after the last record. -/
theorem curl_output_no_trailing_delimiter (linesep : List Nat) (results : List JobResult)
    (h : okRecords results ≠ []) :
    curlRunOutput linesep results = some (specSepJoin linesep (okRecords results)) := by
  have hw : curlWrites linesep results = specSepJoin linesep (okRecords results) ++ linesep := by
    rw [curlWrites_eq, writesFlat_eq_specSepJoin _ _ h]
  unfold curlRunOutput fileTruncate
  rw [hw]
  have h1 : ((specSepJoin linesep (okRecords results) ++ linesep).length : Int) -
      (linesep.length : Int) = ((specSepJoin linesep (okRecords results)).length : Int) := by
    simp [List.length_append]
  rw [h1]
  have h2 : ¬ (((specSepJoin linesep (okRecords results)).length : Int) < 0) := by omega
  rw [if_neg h2]
  simp [List.take_left]

theorem curl_output_no_trailing_delimiter_witness :
    okRecords [JobResult.ok [65], JobResult.err 6 "dns", JobResult.ok [66, 67]] ≠ [] ∧
    curlRunOutput [10] [JobResult.ok [65], JobResult.err 6 "dns", JobResult.ok [66, 67]] =
      some (specSepJoin [10]
        (okRecords [JobResult.ok [65], JobResult.err 6 "dns", JobResult.ok [66, 67]])) :=
  ⟨by decide, curl_output_no_trailing_delimiter [10] _ (by decide)⟩

/-- C10.  In the connection-pool engine, a run in which no successful
record is written leaves `tell() = 0`, so the cleanup step computes
`truncate(0 - len(os.linesep))`, i.e. calls truncate with a negative
size, and raises instead of finishing cleanly with an empty file. -/
theorem curl_truncate_negative_on_zero_success (linesep : List Nat)
    (results : List JobResult) (hok : okRecords results = []) (hsep : linesep ≠ []) :
    curlWrites linesep results = [] ∧ curlRunOutput linesep results = none := by
  have hw : curlWrites linesep results = [] := by
    rw [curlWrites_eq, hok]; rfl
  refine ⟨hw, ?_⟩
  unfold curlRunOutput fileTruncate
  rw [hw]
  have hlen : 0 < linesep.length := List.length_pos.mpr hsep
  have hneg : ((([] : List Nat).length : Int) - (linesep.length : Int)) < 0 := by
    simp; omega
  rw [if_pos hneg]

theorem curl_truncate_negative_on_zero_success_witness :
    curlWrites [10] [JobResult.err 7 "timeout"] = [] ∧
    curlRunOutput [10] [JobResult.err 7 "timeout"] = none :=
  curl_truncate_negative_on_zero_success [10] [JobResult.err 7 "timeout"]
    (by decide) (by decide)

/-- C3.  The page-pool engine does enqueue all jobs followed by exactly
`numPages` sentinels, and each worker exits after consuming a sentinel —
but the worker `return`s on a sentinel **without** calling
`queue.task_done()` (cli/scraper.py lines 169-170), so the queue's
unfinished-task count stays at `numPages` forever and
`await job_queue.join()` (line 223) never returns for any `numPages ≥ 1`:
the run does not terminate. -/
theorem playwright_join_never_returns (urls : List String) (M : Nat) :
    (playwrightEnqueue urls M).count none = M ∧
    queueUnfinishedAfterRun urls M = M ∧
    (1 ≤ M → playwrightJoinReturns urls M = false) := by
  have hcount : (playwrightEnqueue urls M).count none = M := by
    unfold playwrightEnqueue
    rw [List.count_append, List.count_replicate_self]
    have : (urls.map some).count (none : Option String) = 0 := by
      rw [List.count_eq_zero]
      simp
    rw [this]
    omega
  have hu : queueUnfinishedAfterRun urls M = M := by
    unfold queueUnfinishedAfterRun playwrightEnqueue
    have h1 : (urls.map some ++ List.replicate M (none : Option String)).length =
        urls.length + M := by simp
    have ha : (urls.map some).countP workerTaskDone = urls.length := by
      rw [List.countP_map]
      simp [workerTaskDone, Function.comp]
    have hb : (List.replicate M (none : Option String)).countP workerTaskDone = 0 := by
      rw [List.countP_eq_zero]
      intro a ha
      rw [List.eq_of_mem_replicate ha]
      simp [workerTaskDone]
    rw [h1, List.countP_append, ha, hb]
    omega
  refine ⟨hcount, hu, ?_⟩
  intro hM
  unfold playwrightJoinReturns
  rw [hu]
  simp only [beq_eq_false_iff_ne, ne_eq]
  omega

theorem playwright_join_never_returns_witness :
    (playwrightEnqueue ["http://a"] 2).count none = 2 ∧
    queueUnfinishedAfterRun ["http://a"] 2 = 2 ∧
    playwrightJoinReturns ["http://a"] 2 = false := by
  have h := playwright_join_never_returns ["http://a"] 2
  exact ⟨h.1, h.2.1, h.2.2 (by decide)⟩

/-- C9.  `_curl_main` asserts `1 <= num_conn <= 10000` (cli/scraper.py
line 49) before the handle pool is allocated (lines 70-72) and before any
network activity; a violating value makes the run fail with the
assertion's configuration error and no state is built.  For every
accepted value the pool is allocated after the clamp
`num_conn = min(num_conn, num_urls)` (line 62), so the effective
concurrency width — the number of pre-allocated handles — is
`min(numConnections, number of jobs)`. -/
theorem curl_num_conn_validation (a : CurlArgs) (n : Int) (urls : List String) :
    (¬ (1 ≤ n ∧ n ≤ 10000) →
      curlMain a n urls = .error "invalid number of concurrent connections") ∧
    ((1 ≤ n ∧ n ≤ 10000) →
      ∃ st, curlMain a n urls = .ok st ∧
        st.handles.length = min n.toNat urls.length ∧
        st.freelist = st.handles) := by
  constructor
  · intro h
    unfold curlMain curlMainSetup
    rw [if_neg h]
  · intro h
    unfold curlMain curlMainSetup
    rw [if_pos h]
    exact ⟨_, rfl, by simp, rfl⟩

theorem curl_num_conn_validation_witness :
    curlMain {} 0 ["http://a"] = .error "invalid number of concurrent connections" ∧
    ∃ st, curlMain {} 3 ["http://a", "http://b"] = .ok st ∧
      st.handles.length = min (Int.toNat 3) (["http://a", "http://b"] : List String).length ∧
      st.freelist = st.handles :=
  ⟨(curl_num_conn_validation {} 0 ["http://a"]).1 (by decide),
    (curl_num_conn_validation {} 3 ["http://a", "http://b"]).2 (by decide)⟩

/-- C1.  The claim says every pooled handle carries the proxy/TLS/header/
cookie/redirect/timeout options accumulated by `CurlScraper.setup`.  But
`_curl_main` never calls `scrapper.setup()` (cli/scraper.py lines 40-76
construct the scraper on line 45 and go straight to allocation), so
`self.curl_options` is still the empty list from `__init__` and every
handle built by `_curl_instance` carries **no** options — while `setup`
on the default configuration would have accumulated a non-empty option
list (share handle, TLS verification, cookie file, redirect policy,
connect timeout, NOSIGNAL, timeout). -/
theorem curl_pool_handles_unconfigured (a : CurlArgs) (n : Int) (urls : List String)
    (st : CurlMainState) (h : curlMain a n urls = .ok st) :
    (∀ c ∈ st.handles, c.options = []) ∧
    ∃ s, CurlScraper.setup (CurlScraper.init {}) = .ok s ∧ s.curl_options ≠ [] := by
  constructor
  · intro c hc
    unfold curlMain curlMainSetup at h
    by_cases hcond : 1 ≤ n ∧ n ≤ 10000
    · rw [if_pos hcond] at h
      cases h
      rw [List.eq_of_mem_replicate hc]
      rfl
    · rw [if_neg hcond] at h
      exact absurd h (by simp)
  · exact ⟨_, rfl, by decide⟩

theorem curl_pool_handles_unconfigured_witness :
    (∀ c ∈ (CurlMainState.mk [⟨[]⟩] [⟨[]⟩] 1).handles, c.options = []) ∧
    ∃ s, CurlScraper.setup (CurlScraper.init {}) = .ok s ∧ s.curl_options ≠ [] :=
  curl_pool_handles_unconfigured {} 2 ["http://a"] (CurlMainState.mk [⟨[]⟩] [⟨[]⟩] 1) rfl

def cfgDefault : PlaywrightCfg := {}

def envContentFail : PageEnv := { content_fails := true }

/-- C4, counterexample.  The claim says the page is closed before `scrape`
returns or propagates, whatever step fails.  Only `page.goto` sits inside
a `try` whose handler closes the page (playwright_scraper.py lines
145-151); when `page.content()` (line 153) raises, the exception
propagates out of `scrape` with the page still open. -/
theorem scrape_content_failure_leaks_page :
    ¬ ((PlaywrightScraper.scrape cfgDefault "http://example.com" envContentFail).pageClosed
        = true) := by
  decide

/-- C4, amended.  The page opened for a job is closed exactly when either
navigation (`page.goto`) fails — the `except` block closes it before
re-raising — or every later step (content read, the two screenshots,
cookie clearing when configured) succeeds, in which case line 172 closes
it before returning; a failure in any of those later steps propagates the
exception with the page left open. -/
theorem scrape_page_closed_iff (cfg : PlaywrightCfg) (url : String) (env : PageEnv) :
    (PlaywrightScraper.scrape cfg url env).pageClosed =
      (env.goto_fails ||
        (!env.content_fails && !env.screenshot_fails && !env.full_screenshot_fails &&
          !(cfg.clear_cookies && env.clear_cookies_fails))) := by
  unfold PlaywrightScraper.scrape
  split_ifs <;> simp_all <;> cases hk : cfg.clear_cookies <;> simp_all

/-- C6.  The claim says a finished exchange with a non-200 response —
*including no response at all* — yields a `RequestRecord` with no
`ResponseRecord`.  For a present response the code behaves as claimed
(status 200 records the captured body, any other status records the
request with `response = None`), but for an exchange whose
`request.response()` is `None`, line 89 of playwright_scraper.py
dereferences `None` before the guard, the handler raises, the wrapper in
`scrape` swallows the exception, and **no** record at all is appended. -/
theorem request_capture_no_response_drops_record (ex : Exchange) :
    (ex.response = none → captureRequest ex = none) ∧
    (∀ resp, ex.response = some resp →
      ∃ r, captureRequest ex = some r ∧
        r.response =
          (if resp.status = 200 then
            some
              { body := some resp.body
                date := some ex.date
                headers := some resp.all_headers
                status_code := some resp.status
                reason := some resp.status_text }
          else none)) := by
  constructor
  · intro h
    unfold captureRequest PlaywrightScraper.request_handler
    rw [h]
  · intro resp h
    unfold captureRequest PlaywrightScraper.request_handler
    rw [h]
    exact ⟨_, rfl, rfl⟩

def exNoResp : Exchange :=
  { url := "http://a", post_data := none, method := "GET", all_headers := [],
    resource_type := "document", parsed_netloc := "a", parsed_path := "/",
    parsed_params := "", response := none, date := 5 }

def ex404 : Exchange :=
  { exNoResp with
    response := some
      { status := 404, body := [], all_headers := [], status_text := "Not Found",
        security_details := [] } }

theorem request_capture_no_response_drops_record_witness :
    captureRequest exNoResp = none ∧
    ∃ r, captureRequest ex404 = some r ∧ r.response = none := by
  constructor
  · exact (request_capture_no_response_drops_record exNoResp).1 rfl
  · obtain ⟨r, hr, hresp⟩ := (request_capture_no_response_drops_record ex404).2 _ rfl
    exact ⟨r, hr, by simpa using hresp⟩

end WebClassifier
